import Mathlib

/-!
Verification of the Diameter server (`diameter_server.py`).

Shallow embedding of the server's data model and operations:
* `HDRItem`, `DiameterMessage` — the message header and the decoded message
  object, including the attribute store built by `DiameterMessage.__init__`
  (a Python dict filled by `self.avps[field] = value` in wire order);
* `invalid_request`, `generate_capability_exchange_answer` — the two
  response builders;
* `cmd_code_responses` / `dispatch` / `send_response` — command dispatch;
* `frameStep` / `handle_request` — the per-connection receive loop
  (framing) and worker lifecycle.

The AVP codec and the command dictionary are external collaborators
(libDiameter); they are modelled at the decoded level: a message body is
the ordered sequence of decoded (code, value) entries, and `encodeAVP`
is the pairing of a code with a value.
-/

/-- A decoded AVP value: the codec produces integers or strings. -/
inductive AVPVal where
  | vint : Int → AVPVal
  | vstr : String → AVPVal
deriving DecidableEq, Repr

/-- A decoded attribute entry: a (code, value) pair, codes being the
dictionary's symbolic names as used by `decodeAVP`/`encodeAVP`. -/
abbrev AVP := String × AVPVal

/-- The fixed read size of `connection.recv` in `handle_request`. -/
def BUFFER_SIZE : Nat := 4096

/-- The `result_codes` dictionary of the source (two entries). -/
def result_codes (name : String) : Int :=
  if name = "DIAMETER_SUCCESS" then 2001
  else if name = "DIAMETER_UNABLE_TO_COMPLY" then 5012
  else 0

/-- Modelled from the spec: the dictionary resolution
`dictCOMMANDname2code` is library code not under src/; per the dispatch
table of `send_response` the Capabilities-Exchange command code is 257. -/
def dictCOMMANDname2code (name : String) : Nat :=
  if name = "Capabilities-Exchange" then 257 else 0

/-- The message header (`HDRItem` of libDiameter) at the decoded level:
`msg` holds the body as the ordered sequence of decoded attribute
entries (`splitMsgAVPs` followed by `decodeAVP` on each raw entry). -/
structure HDRItem where
  ver : Nat := 0
  flags : Nat := 0
  len : Nat := 0
  cmd : Nat := 0
  appId : Nat := 0
  HobByHop : Nat := 0
  EndToEnd : Nat := 0
  msg : List AVP := []
deriving DecidableEq, Repr

/-- Modelled from the spec: `initializeHops` is library code not under
src/.  Its call sites pass only the response header, never the request,
so whatever identifiers it assigns are a function of server-side state
alone; we expose them as the parameters `hop` and `e2e`, covering every
possible behaviour of the missing code. -/
def initializeHops (hdr : HDRItem) (hop e2e : Nat) : HDRItem :=
  { hdr with HobByHop := hop, EndToEnd := e2e }

/-- Modelled from the spec: the codec boundary's encode is deterministic,
order-preserving and round-trips with decode, so at the decoded level
`encodeAVP` is the pairing of a code with a value. -/
def encodeAVP (name : String) (value : AVPVal) : AVP := (name, value)

/-- Python dict assignment `d[field] = value`: replace the value at an
existing key in place (insertion order preserved), otherwise append. -/
def dictInsert : List AVP → String → AVPVal → List AVP
  | [], k, v => [(k, v)]
  | p :: d, k, v => if p.1 = k then (k, v) :: d else p :: dictInsert d k v

/-- Python dict lookup `d[k]` (first entry with the key; a dict holds at
most one entry per key): `none` models the KeyError. -/
def avpLookup : List AVP → String → Option AVPVal
  | [], _ => none
  | p :: d, k => if p.1 = k then some p.2 else avpLookup d k

/-- The loop of `DiameterMessage.__init__`: fold the decoded entries, in
wire order, into a dict via `self.avps[field] = value`. -/
def buildAvps (entries : List AVP) : List AVP :=
  entries.foldl (fun d e => dictInsert d e.1 e.2) []

/-- The value of the last entry with the given code, in wire order. -/
def lastLookup : List AVP → String → Option AVPVal
  | [], _ => none
  | p :: es, k =>
    match lastLookup es k with
    | some v => some v
    | none => if p.1 = k then some p.2 else none

/-- Number of entries with the given code. -/
def countKey : List AVP → String → Nat
  | [], _ => 0
  | p :: d, k => (if p.1 = k then 1 else 0) + countKey d k

/-- The `DiameterMessage` object: header fields, the raw (here: decoded
but unfolded) entry list `hex_avps`, and the `avps` dict. -/
structure DiameterMessage where
  version : Nat
  flags : Nat
  length : Nat
  command_code : Nat
  application_Id : Nat
  HobByHop : Nat
  EndToEnd : Nat
  hex_avps : List AVP
  avps : List AVP
deriving DecidableEq, Repr

/-- `DiameterMessage.__init__`: copy the header fields, split the body
into entries, and decode them into the `avps` dict. -/
def DiameterMessage.ofHDR (request_data : HDRItem) : DiameterMessage :=
  { version := request_data.ver
    flags := request_data.flags
    length := request_data.len
    command_code := request_data.cmd
    application_Id := request_data.appId
    HobByHop := request_data.HobByHop
    EndToEnd := request_data.EndToEnd
    hex_avps := request_data.msg
    avps := buildAvps request_data.msg }

/-- A built response before encoding: the header produced by the builder
and the ordered list of AVPs handed to `createRes`. -/
structure Response where
  header : HDRItem
  avps : List AVP
deriving DecidableEq, Repr

/-- `invalid_request`: fresh header, command code copied from the
request, hop identifiers assigned by `initializeHops`, body a single
Result-Code = DIAMETER_UNABLE_TO_COMPLY AVP. -/
def invalid_request (hop e2e : Nat) (diameter_request : DiameterMessage) : Response :=
  let response_header := initializeHops { cmd := diameter_request.command_code } hop e2e
  { header := response_header
    avps := [encodeAVP "Result-Code" (AVPVal.vint (result_codes "DIAMETER_UNABLE_TO_COMPLY"))] }

/-- `generate_capability_exchange_answer`: fresh header with the
Capabilities-Exchange command code, hop identifiers assigned by
`initializeHops`, and the seven AVPs appended in source order; a failed
dict lookup (`diameter_request.avps[...]`, a KeyError) yields `none`. -/
def generate_capability_exchange_answer (hop e2e : Nat)
    (diameter_request : DiameterMessage) : Option Response :=
  let cea_header := initializeHops
    { cmd := dictCOMMANDname2code "Capabilities-Exchange" } hop e2e
  (avpLookup diameter_request.avps "Origin-Host").bind fun originHost =>
  (avpLookup diameter_request.avps "Origin-Realm").bind fun originRealm =>
  (avpLookup diameter_request.avps "Vendor-Id").bind fun vendorId =>
  (avpLookup diameter_request.avps "Origin-State-Id").bind fun originStateId =>
  (avpLookup diameter_request.avps "Supported-Vendor-Id").bind fun supportedVendorId =>
  (avpLookup diameter_request.avps "Acct-Application-Id").bind fun acctApplicationId =>
  some { header := cea_header
         avps := [encodeAVP "Origin-Host" originHost,
                  encodeAVP "Origin-Realm" originRealm,
                  encodeAVP "Result-Code" (AVPVal.vint (result_codes "DIAMETER_SUCCESS")),
                  encodeAVP "Vendor-Id" vendorId,
                  encodeAVP "Origin-State-Id" originStateId,
                  encodeAVP "Supported-Vendor-Id" supportedVendorId,
                  encodeAVP "Acct-Application-Id" acctApplicationId] }

/-- A handler selected by dispatch. -/
inductive Handler where
  | capabilityExchange
  | invalid
deriving DecidableEq, Repr

/-- The static registration table `cmd_code_responses` of
`send_response`: command code 257 maps to the capability-exchange
builder. -/
def cmd_code_responses : List (Nat × Handler) :=
  [(257, Handler.capabilityExchange)]

/-- Python dict lookup for the registration table. -/
def dictGet : List (Nat × Handler) → Nat → Option Handler
  | [], _ => none
  | p :: d, code => if p.1 = code then some p.2 else dictGet d code

/-- `cmd_code_responses.get(code, invalid_request)`: dict lookup with
the invalid-request builder as the default. -/
def dispatch (code : Nat) : Handler :=
  match dictGet cmd_code_responses code with
  | some h => h
  | none => Handler.invalid

/-- Run the selected builder (`none` = an uncaught KeyError). -/
def runHandler (h : Handler) (hop e2e : Nat) (req : DiameterMessage) : Option Response :=
  match h with
  | Handler.capabilityExchange => generate_capability_exchange_answer hop e2e req
  | Handler.invalid => some (invalid_request hop e2e req)

/-- `send_response` at the decoded level: dispatch on the request's
command code and run the selected builder. -/
def send_response (hop e2e : Nat) (diameter_request : DiameterMessage) : Option Response :=
  runHandler (dispatch diameter_request.command_code) hop e2e diameter_request

/-- One result of `connection.recv(BUFFER_SIZE)`: a chunk of bytes
(possibly empty, for a closed peer) or a `socket.error`. -/
inductive RecvResult where
  | data : List Nat → RecvResult
  | err : RecvResult
deriving DecidableEq, Repr

/-- The inner drain loop of `handle_request`: keep appending recv
results until a `socket.error`; `none` models a read that blocks
forever because no error and no data ever arrive. -/
def drain (acc : List Nat) : List RecvResult → Option (List Nat × List RecvResult)
  | [] => none
  | RecvResult.err :: rest => some (acc, rest)
  | RecvResult.data d :: rest => drain (acc ++ d) rest

/-- Outcome of one iteration of the receive loop of `handle_request`. -/
inductive FrameStep where
  /-- The loop breaks (recv error, or zero bytes accumulated). -/
  | closed
  /-- Bytes handed to `send_response`, with the rest of the stream. -/
  | frame : List Nat → List RecvResult → FrameStep
  /-- A recv blocks forever. -/
  | blocked
deriving DecidableEq, Repr

/-- One iteration of the receive loop of `handle_request` (the framing
step): recv once; if the chunk fills the buffer exactly, drain until a
recv error; then break on zero accumulated bytes, otherwise hand the
accumulated bytes to `send_response`. -/
def frameStep (stream : List RecvResult) : FrameStep :=
  match stream with
  | [] => FrameStep.blocked
  | RecvResult.err :: _ => FrameStep.closed
  | RecvResult.data d :: rest =>
    let drained := if d.length = BUFFER_SIZE then drain d rest else some (d, rest)
    match drained with
    | none => FrameStep.blocked
    | some (acc, rest2) =>
      if acc.length = 0 then FrameStep.closed else FrameStep.frame acc rest2

/-- Terminal state of a connection worker. -/
inductive WorkerOutcome where
  /-- The loop broke and `connection.close()` ran. -/
  | closed
  /-- An uncaught exception killed the worker before the close. -/
  | crashed
  /-- Still looping or blocked on a read (fuel exhausted / no data). -/
  | stuck
deriving DecidableEq, Repr

/-- The worker loop of `handle_request`, fuel-bounded: each iteration
frames one message and sends the response produced by `respond`; a
`none` from `respond` is an uncaught exception that kills the worker.
Returns the responses sent, in order, and the terminal outcome. -/
def handle_request (respond : List Nat → Option (List Nat)) :
    Nat → List RecvResult → List (List Nat) × WorkerOutcome
  | 0, _ => ([], WorkerOutcome.stuck)
  | fuel + 1, stream =>
    match frameStep stream with
    | FrameStep.blocked => ([], WorkerOutcome.stuck)
    | FrameStep.closed => ([], WorkerOutcome.closed)
    | FrameStep.frame data rest =>
      match respond data with
      | none => ([], WorkerOutcome.crashed)
      | some resp =>
        let r := handle_request respond fuel rest
        (resp :: r.1, r.2)

/-- The byte-level response pipeline of `send_response`, with the
external codec abstracted: `parse` decodes the framed bytes into a
`DiameterMessage` (`stripHdr` + `DiameterMessage.__init__`), the
builders run at the decoded level, and `enc` re-encodes the built
response (`createRes` + the hex decode before `socket.send`). -/
def respondBytes (parse : List Nat → Option DiameterMessage)
    (enc : Response → List Nat) (hop e2e : Nat) (bytes : List Nat) : Option (List Nat) :=
  (parse bytes).bind fun req => (send_response hop e2e req).map enc

/-- Modelled from the spec: the wire header layout (version 1 byte, then
length on 3 bytes big-endian); `stripHdr` is library code not under
src/.  Extracts the declared total message length. -/
def declaredLength (bytes : List Nat) : Option Nat :=
  match bytes with
  | _v :: l1 :: l2 :: l3 :: _ => some (l1 * 65536 + l2 * 256 + l3)
  | _ => none

/-! ### Lemmas about the attribute dictionary -/

theorem avpLookup_dictInsert_self (d : List AVP) (k : String) (v : AVPVal) :
    avpLookup (dictInsert d k v) k = some v := by
  induction d with
  | nil => simp [dictInsert, avpLookup]
  | cons p d ih =>
    by_cases h : p.1 = k
    · simp [dictInsert, h, avpLookup]
    · simp [dictInsert, h, avpLookup, ih]

theorem avpLookup_dictInsert_ne (d : List AVP) (k k2 : String) (v : AVPVal)
    (h : k ≠ k2) : avpLookup (dictInsert d k v) k2 = avpLookup d k2 := by
  induction d with
  | nil => simp [dictInsert, avpLookup, h]
  | cons p d ih =>
    by_cases hp : p.1 = k
    · simp [dictInsert, hp, avpLookup, h]
    · simp [dictInsert, hp, avpLookup, ih]

theorem countKey_dictInsert_ne (d : List AVP) (k k2 : String) (v : AVPVal)
    (h : k ≠ k2) : countKey (dictInsert d k v) k2 = countKey d k2 := by
  induction d with
  | nil => simp [dictInsert, countKey, h]
  | cons p d ih =>
    by_cases hp : p.1 = k
    · simp [dictInsert, hp, countKey, h]
    · simp [dictInsert, hp, countKey, ih]

theorem countKey_dictInsert_self (d : List AVP) (k : String) (v : AVPVal) :
    countKey (dictInsert d k v) k = max 1 (countKey d k) := by
  induction d with
  | nil => simp [dictInsert, countKey]
  | cons p d ih =>
    by_cases hp : p.1 = k
    · simp [dictInsert, hp, countKey]
    · simp [dictInsert, hp, countKey, ih]

theorem countKey_foldl_le (es : List AVP) (k : String) :
    ∀ d, countKey d k ≤ 1 →
      countKey (es.foldl (fun d e => dictInsert d e.1 e.2) d) k ≤ 1 := by
  induction es with
  | nil => intro d hd; simpa using hd
  | cons e es ih =>
    intro d hd
    simp only [List.foldl_cons]
    apply ih
    by_cases he : e.1 = k
    · subst he
      rw [countKey_dictInsert_self]
      omega
    · rw [countKey_dictInsert_ne _ _ _ _ he]
      exact hd

theorem avpLookup_foldl (es : List AVP) (k : String) :
    ∀ d, avpLookup (es.foldl (fun d e => dictInsert d e.1 e.2) d) k =
      match lastLookup es k with
      | some v => some v
      | none => avpLookup d k := by
  induction es with
  | nil => intro d; simp [lastLookup]
  | cons e es ih =>
    intro d
    simp only [List.foldl_cons]
    rw [ih]
    cases hl : lastLookup es k with
    | some v => simp [lastLookup, hl]
    | none =>
      by_cases he : e.1 = k
      · subst he
        simp [lastLookup, hl, avpLookup_dictInsert_self]
      · simp [lastLookup, hl, he, avpLookup_dictInsert_ne _ _ _ _ he]

/-- Closed form of the dispatcher. -/
theorem dispatch_eq (code : Nat) :
    dispatch code =
      if code = 257 then Handler.capabilityExchange else Handler.invalid := by
  by_cases h : code = 257
  · subst h; rfl
  · simp [dispatch, dictGet, cmd_code_responses, Ne.symm h, h]

/-! ### Concrete messages used as inputs -/

/-- A request body carrying two AVPs with the same code. -/
def c3Hdr : HDRItem :=
  { ver := 1, flags := 128, len := 52, cmd := 257, appId := 0,
    HobByHop := 7, EndToEnd := 8,
    msg := [("Supported-Vendor-Id", AVPVal.vint 10193),
            ("Supported-Vendor-Id", AVPVal.vint 10415)] }

/-- A valid 100-byte message: version 1, declared length 100. -/
def c1Msg : List Nat := 1 :: 0 :: 0 :: 100 :: List.replicate 96 0

/-- The same message delivered by the transport in two chunks of 60 and
40 bytes. -/
def c1Stream : List RecvResult :=
  [RecvResult.data (c1Msg.take 60), RecvResult.data (c1Msg.drop 60)]

/-- Requests for the default builder differing only in their hop-by-hop
identifier. -/
def c2InvReqA : DiameterMessage :=
  { version := 1, flags := 128, length := 20, command_code := 9999,
    application_Id := 0, HobByHop := 0, EndToEnd := 0,
    hex_avps := [], avps := [] }

def c2InvReqB : DiameterMessage := { c2InvReqA with HobByHop := 1 }

/-- A full set of the six attributes the capability-exchange builder
requires. -/
def ceaAvps : List AVP :=
  [("Origin-Host", AVPVal.vstr "peerA"),
   ("Origin-Realm", AVPVal.vstr "realm.test"),
   ("Vendor-Id", AVPVal.vint 0),
   ("Origin-State-Id", AVPVal.vint 1),
   ("Supported-Vendor-Id", AVPVal.vint 0),
   ("Acct-Application-Id", AVPVal.vint 0)]

/-- Capability-exchange requests differing only in their hop-by-hop
identifier. -/
def c2CeaReqA : DiameterMessage :=
  { version := 1, flags := 128, length := 120, command_code := 257,
    application_Id := 0, HobByHop := 0, EndToEnd := 0,
    hex_avps := ceaAvps, avps := buildAvps ceaAvps }

def c2CeaReqB : DiameterMessage := { c2CeaReqA with HobByHop := 1 }

/-! ### Claim theorems -/

/-- Claim C9 as amended: the attribute store of a decoded message maps
each code to the value of the last entry with that code in wire order
(later entries overwrite earlier ones) and keeps at most one entry per
code, so earlier duplicate values are absent from the store — but the
constructed object retains every entry, in wire order, in its
`hex_avps` field, from which earlier duplicates remain recoverable. -/
theorem c9_attribute_store_last_entry_wins (request_data : HDRItem) (k : String) :
    avpLookup (DiameterMessage.ofHDR request_data).avps k =
      lastLookup request_data.msg k ∧
    countKey (DiameterMessage.ofHDR request_data).avps k ≤ 1 ∧
    (DiameterMessage.ofHDR request_data).hex_avps = request_data.msg := by
  refine ⟨?_, ?_, rfl⟩
  · show avpLookup (buildAvps request_data.msg) k = lastLookup request_data.msg k
    unfold buildAvps
    rw [avpLookup_foldl]
    cases lastLookup request_data.msg k <;> simp [avpLookup]
  · show countKey (buildAvps request_data.msg) k ≤ 1
    unfold buildAvps
    exact countKey_foldl_le _ _ _ (by simp [countKey])

/-- Claim C9, as stated, fails on the code: on a body carrying two
Supported-Vendor-Id entries the store does map the code to the last
value, but the earlier duplicate value is not unrecoverable from the
constructed DiameterMessage — the object's `hex_avps` field (line 49 of
the source) still carries the earlier entry verbatim. -/
theorem c9_earlier_value_recoverable_from_object :
    avpLookup (DiameterMessage.ofHDR c3Hdr).avps "Supported-Vendor-Id" =
      some (AVPVal.vint 10415) ∧
    ("Supported-Vendor-Id", AVPVal.vint 10193) ∈
      (DiameterMessage.ofHDR c3Hdr).hex_avps :=
  ⟨rfl, List.Mem.head _⟩

/-- Claim C3 fails on the code: the attribute store is a dict, so of two
entries with the same code only the last survives — the wire carried two
Supported-Vendor-Id entries but the constructed message's store holds
exactly one, the second value. -/
theorem c3_duplicate_codes_are_collapsed :
    (DiameterMessage.ofHDR c3Hdr).hex_avps =
      [("Supported-Vendor-Id", AVPVal.vint 10193),
       ("Supported-Vendor-Id", AVPVal.vint 10415)] ∧
    (DiameterMessage.ofHDR c3Hdr).avps =
      [("Supported-Vendor-Id", AVPVal.vint 10415)] := by
  exact ⟨rfl, rfl⟩

/-- Claim C1 fails on the code: the receive loop hands the first chunk
(60 bytes) straight to decoding because it is shorter than the fixed
buffer size, even though the header declares a 100-byte message whose
remaining 40 bytes are still in the stream. -/
theorem c1_framer_not_length_driven :
    declaredLength c1Msg = some 100 ∧
    frameStep c1Stream =
      FrameStep.frame (c1Msg.take 60) [RecvResult.data (c1Msg.drop 60)] ∧
    (c1Msg.take 60).length ≠ 100 := by
  refine ⟨rfl, rfl, by decide⟩

/-- Claim C8: a first transport read of zero bytes makes the worker
break out of its loop and close the connection without sending
anything, whatever responder and remaining stream follow. -/
theorem c8_zero_byte_read_closes_without_send
    (respond : List Nat → Option (List Nat)) (fuel : Nat)
    (rest : List RecvResult) :
    handle_request respond (fuel + 1) (RecvResult.data [] :: rest) =
      ([], WorkerOutcome.closed) := rfl

/-- Claim C2 fails on the code: both builders obtain their hop-by-hop
identifier from `initializeHops`, which never sees the request, so
whatever value it assigns cannot match both of two requests that differ
only in their hop-by-hop identifier. -/
theorem c2_hop_identifiers_not_copied (hop e2e : Nat) :
    ((invalid_request hop e2e c2InvReqA).header.HobByHop ≠ c2InvReqA.HobByHop ∨
     (invalid_request hop e2e c2InvReqB).header.HobByHop ≠ c2InvReqB.HobByHop) ∧
    ((generate_capability_exchange_answer hop e2e c2CeaReqA).map
        (fun r => r.header.HobByHop) ≠ some c2CeaReqA.HobByHop ∨
     (generate_capability_exchange_answer hop e2e c2CeaReqB).map
        (fun r => r.header.HobByHop) ≠ some c2CeaReqB.HobByHop) := by
  have hinvA : (invalid_request hop e2e c2InvReqA).header.HobByHop = hop := rfl
  have hinvB : (invalid_request hop e2e c2InvReqB).header.HobByHop = hop := rfl
  have hceaA : (generate_capability_exchange_answer hop e2e c2CeaReqA).map
      (fun r => r.header.HobByHop) = some hop := rfl
  have hceaB : (generate_capability_exchange_answer hop e2e c2CeaReqB).map
      (fun r => r.header.HobByHop) = some hop := rfl
  have eA : c2InvReqA.HobByHop = 0 := rfl
  have eB : c2InvReqB.HobByHop = 1 := rfl
  have eCA : c2CeaReqA.HobByHop = 0 := rfl
  have eCB : c2CeaReqB.HobByHop = 1 := rfl
  rw [hinvA, hinvB, hceaA, hceaB, eA, eB, eCA, eCB]
  by_cases h : hop = 0
  · subst h
    exact ⟨Or.inr (by omega), Or.inr (by simp)⟩
  · exact ⟨Or.inl h, Or.inl (by simp [h])⟩

/-- Claim C7: dispatch is total — every command code resolves to exactly
one of the two handlers, the capability-exchange handler exactly on code
257, and every code absent from the registration table resolves to the
default/invalid handler. -/
theorem c7_dispatch_total (code : Nat) :
    (dispatch code = Handler.capabilityExchange ∨
      dispatch code = Handler.invalid) ∧
    (dispatch code = Handler.capabilityExchange ↔ code = 257) ∧
    (dispatch code = Handler.invalid ↔
      code ∉ cmd_code_responses.map Prod.fst) := by
  rw [dispatch_eq]
  by_cases h : code = 257
  · subst h; simp [cmd_code_responses]
  · simp [h, cmd_code_responses]

/-- Claim C5: a request whose command code is not in the registration
table gets a response whose body is exactly one Result-Code = 5012 AVP
and whose header carries the request's command code. -/
theorem c5_unknown_code_single_result_code (hop e2e : Nat)
    (req : DiameterMessage) (hcc : req.command_code ≠ 257) :
    ∃ resp, send_response hop e2e req = some resp ∧
      resp.avps = [("Result-Code", AVPVal.vint 5012)] ∧
      resp.header.cmd = req.command_code := by
  refine ⟨invalid_request hop e2e req, ?_, rfl, rfl⟩
  simp [send_response, dispatch_eq, hcc, runHandler]

/-- A request with an unregistered command code. -/
def c5Req : DiameterMessage :=
  { version := 1, flags := 128, length := 20, command_code := 9999,
    application_Id := 0, HobByHop := 3, EndToEnd := 4,
    hex_avps := [], avps := [] }

/-- Witness for C5 at command code 9999. -/
theorem c5_unknown_code_single_result_code_witness :
    c5Req.command_code ≠ 257 ∧
    ∃ resp, send_response 1 2 c5Req = some resp ∧
      resp.avps = [("Result-Code", AVPVal.vint 5012)] ∧
      resp.header.cmd = c5Req.command_code :=
  ⟨by decide, c5_unknown_code_single_result_code 1 2 c5Req (by decide)⟩

/-- Claim C4: a command-code-257 request carrying all six required
attributes gets a response that contains Result-Code = 2001 and the six
attributes with the request's values. -/
theorem c4_cea_echoes_attributes_with_success (hop e2e : Nat)
    (req : DiameterMessage) (hcc : req.command_code = 257)
    (oh orl vi osi svi aai : AVPVal)
    (h1 : avpLookup req.avps "Origin-Host" = some oh)
    (h2 : avpLookup req.avps "Origin-Realm" = some orl)
    (h3 : avpLookup req.avps "Vendor-Id" = some vi)
    (h4 : avpLookup req.avps "Origin-State-Id" = some osi)
    (h5 : avpLookup req.avps "Supported-Vendor-Id" = some svi)
    (h6 : avpLookup req.avps "Acct-Application-Id" = some aai) :
    ∃ resp, send_response hop e2e req = some resp ∧
      ("Result-Code", AVPVal.vint 2001) ∈ resp.avps ∧
      ("Origin-Host", oh) ∈ resp.avps ∧
      ("Origin-Realm", orl) ∈ resp.avps ∧
      ("Vendor-Id", vi) ∈ resp.avps ∧
      ("Origin-State-Id", osi) ∈ resp.avps ∧
      ("Supported-Vendor-Id", svi) ∈ resp.avps ∧
      ("Acct-Application-Id", aai) ∈ resp.avps := by
  have hd : dispatch req.command_code = Handler.capabilityExchange := by
    rw [hcc]; rfl
  refine ⟨{ header := initializeHops
              { cmd := dictCOMMANDname2code "Capabilities-Exchange" } hop e2e
            avps := [("Origin-Host", oh), ("Origin-Realm", orl),
                     ("Result-Code", AVPVal.vint 2001), ("Vendor-Id", vi),
                     ("Origin-State-Id", osi), ("Supported-Vendor-Id", svi),
                     ("Acct-Application-Id", aai)] }, ?_, ?_⟩
  · simp [send_response, hd, runHandler, generate_capability_exchange_answer,
      h1, h2, h3, h4, h5, h6, encodeAVP, result_codes]
  · simp

/-- A command-code-257 request carrying all six required attributes. -/
def c4Req : DiameterMessage :=
  { version := 1, flags := 128, length := 120, command_code := 257,
    application_Id := 0, HobByHop := 5, EndToEnd := 6,
    hex_avps := ceaAvps, avps := buildAvps ceaAvps }

/-- Witness for C4 on a concrete capability-exchange request. -/
theorem c4_cea_echoes_attributes_with_success_witness :
    c4Req.command_code = 257 ∧
    avpLookup c4Req.avps "Origin-Host" = some (AVPVal.vstr "peerA") ∧
    avpLookup c4Req.avps "Origin-Realm" = some (AVPVal.vstr "realm.test") ∧
    avpLookup c4Req.avps "Vendor-Id" = some (AVPVal.vint 0) ∧
    avpLookup c4Req.avps "Origin-State-Id" = some (AVPVal.vint 1) ∧
    avpLookup c4Req.avps "Supported-Vendor-Id" = some (AVPVal.vint 0) ∧
    avpLookup c4Req.avps "Acct-Application-Id" = some (AVPVal.vint 0) ∧
    (∃ resp, send_response 1 2 c4Req = some resp ∧
      ("Result-Code", AVPVal.vint 2001) ∈ resp.avps ∧
      ("Origin-Host", AVPVal.vstr "peerA") ∈ resp.avps ∧
      ("Origin-Realm", AVPVal.vstr "realm.test") ∈ resp.avps ∧
      ("Vendor-Id", AVPVal.vint 0) ∈ resp.avps ∧
      ("Origin-State-Id", AVPVal.vint 1) ∈ resp.avps ∧
      ("Supported-Vendor-Id", AVPVal.vint 0) ∈ resp.avps ∧
      ("Acct-Application-Id", AVPVal.vint 0) ∈ resp.avps) :=
  ⟨rfl, rfl, rfl, rfl, rfl, rfl, rfl,
   c4_cea_echoes_attributes_with_success 1 2 c4Req rfl
     (AVPVal.vstr "peerA") (AVPVal.vstr "realm.test") (AVPVal.vint 0)
     (AVPVal.vint 1) (AVPVal.vint 0) (AVPVal.vint 0)
     rfl rfl rfl rfl rfl rfl⟩

/-- Claim C10: the capability-exchange builder's response body is
exactly these seven AVPs in this order, Result-Code third. -/
theorem c10_cea_fixed_avp_order (hop e2e : Nat)
    (req : DiameterMessage)
    (oh orl vi osi svi aai : AVPVal)
    (h1 : avpLookup req.avps "Origin-Host" = some oh)
    (h2 : avpLookup req.avps "Origin-Realm" = some orl)
    (h3 : avpLookup req.avps "Vendor-Id" = some vi)
    (h4 : avpLookup req.avps "Origin-State-Id" = some osi)
    (h5 : avpLookup req.avps "Supported-Vendor-Id" = some svi)
    (h6 : avpLookup req.avps "Acct-Application-Id" = some aai) :
    ∃ resp, generate_capability_exchange_answer hop e2e req = some resp ∧
      resp.avps = [("Origin-Host", oh), ("Origin-Realm", orl),
                   ("Result-Code", AVPVal.vint 2001), ("Vendor-Id", vi),
                   ("Origin-State-Id", osi), ("Supported-Vendor-Id", svi),
                   ("Acct-Application-Id", aai)] := by
  refine ⟨{ header := initializeHops
              { cmd := dictCOMMANDname2code "Capabilities-Exchange" } hop e2e
            avps := [("Origin-Host", oh), ("Origin-Realm", orl),
                     ("Result-Code", AVPVal.vint 2001), ("Vendor-Id", vi),
                     ("Origin-State-Id", osi), ("Supported-Vendor-Id", svi),
                     ("Acct-Application-Id", aai)] }, ?_, rfl⟩
  simp [generate_capability_exchange_answer, h1, h2, h3, h4, h5, h6,
    encodeAVP, result_codes]

/-- Witness for C10 on a concrete capability-exchange request. -/
theorem c10_cea_fixed_avp_order_witness :
    avpLookup c4Req.avps "Origin-Host" = some (AVPVal.vstr "peerA") ∧
    avpLookup c4Req.avps "Origin-Realm" = some (AVPVal.vstr "realm.test") ∧
    avpLookup c4Req.avps "Vendor-Id" = some (AVPVal.vint 0) ∧
    avpLookup c4Req.avps "Origin-State-Id" = some (AVPVal.vint 1) ∧
    avpLookup c4Req.avps "Supported-Vendor-Id" = some (AVPVal.vint 0) ∧
    avpLookup c4Req.avps "Acct-Application-Id" = some (AVPVal.vint 0) ∧
    (∃ resp, generate_capability_exchange_answer 1 2 c4Req = some resp ∧
      resp.avps = [("Origin-Host", AVPVal.vstr "peerA"),
                   ("Origin-Realm", AVPVal.vstr "realm.test"),
                   ("Result-Code", AVPVal.vint 2001),
                   ("Vendor-Id", AVPVal.vint 0),
                   ("Origin-State-Id", AVPVal.vint 1),
                   ("Supported-Vendor-Id", AVPVal.vint 0),
                   ("Acct-Application-Id", AVPVal.vint 0)]) :=
  ⟨rfl, rfl, rfl, rfl, rfl, rfl,
   c10_cea_fixed_avp_order 1 2 c4Req
     (AVPVal.vstr "peerA") (AVPVal.vstr "realm.test") (AVPVal.vint 0)
     (AVPVal.vint 1) (AVPVal.vint 0) (AVPVal.vint 0)
     rfl rfl rfl rfl rfl rfl⟩

/-- If any of the six required attributes is missing from the request,
the capability-exchange builder's dict lookup fails. -/
theorem cea_eq_none_of_missing (hop e2e : Nat) (req : DiameterMessage)
    (hmiss : avpLookup req.avps "Origin-Host" = none ∨
             avpLookup req.avps "Origin-Realm" = none ∨
             avpLookup req.avps "Vendor-Id" = none ∨
             avpLookup req.avps "Origin-State-Id" = none ∨
             avpLookup req.avps "Supported-Vendor-Id" = none ∨
             avpLookup req.avps "Acct-Application-Id" = none) :
    generate_capability_exchange_answer hop e2e req = none := by
  simp only [generate_capability_exchange_answer]
  cases hOH : avpLookup req.avps "Origin-Host" <;>
    cases hOR : avpLookup req.avps "Origin-Realm" <;>
    cases hVI : avpLookup req.avps "Vendor-Id" <;>
    cases hOS : avpLookup req.avps "Origin-State-Id" <;>
    cases hSV : avpLookup req.avps "Supported-Vendor-Id" <;>
    cases hAA : avpLookup req.avps "Acct-Application-Id" <;>
    simp_all

/-- Claim C6: on a command-code-257 request missing one of the six
required attributes, the builder fails with an attribute-lookup failure
that nothing catches, so no response is produced and the worker that
framed the request dies (crashed, not closed) having sent nothing. -/
theorem c6_missing_attribute_crashes_worker
    (parse : List Nat → Option DiameterMessage) (enc : Response → List Nat)
    (hop e2e fuel : Nat) (stream : List RecvResult) (bytes : List Nat)
    (rest : List RecvResult) (req : DiameterMessage)
    (hframe : frameStep stream = FrameStep.frame bytes rest)
    (hparse : parse bytes = some req)
    (hcc : req.command_code = 257)
    (hmiss : avpLookup req.avps "Origin-Host" = none ∨
             avpLookup req.avps "Origin-Realm" = none ∨
             avpLookup req.avps "Vendor-Id" = none ∨
             avpLookup req.avps "Origin-State-Id" = none ∨
             avpLookup req.avps "Supported-Vendor-Id" = none ∨
             avpLookup req.avps "Acct-Application-Id" = none) :
    generate_capability_exchange_answer hop e2e req = none ∧
    send_response hop e2e req = none ∧
    handle_request (respondBytes parse enc hop e2e) (fuel + 1) stream =
      ([], WorkerOutcome.crashed) := by
  have hcea := cea_eq_none_of_missing hop e2e req hmiss
  have hsr : send_response hop e2e req = none := by
    simp [send_response, dispatch_eq, hcc, runHandler, hcea]
  refine ⟨hcea, hsr, ?_⟩
  simp [handle_request, hframe, respondBytes, hparse, hsr]

/-- A command-code-257 request body missing Origin-Host. -/
def c6Avps : List AVP :=
  [("Origin-Realm", AVPVal.vstr "realm.test"),
   ("Vendor-Id", AVPVal.vint 0),
   ("Origin-State-Id", AVPVal.vint 1),
   ("Supported-Vendor-Id", AVPVal.vint 0),
   ("Acct-Application-Id", AVPVal.vint 0)]

def c6Req : DiameterMessage :=
  { version := 1, flags := 128, length := 100, command_code := 257,
    application_Id := 0, HobByHop := 9, EndToEnd := 10,
    hex_avps := c6Avps, avps := buildAvps c6Avps }

/-- A parser delivering the C6 request for the framed bytes. -/
def c6Parse (bytes : List Nat) : Option DiameterMessage :=
  match bytes with
  | [1] => some c6Req
  | _ => none

def c6Enc (resp : Response) : List Nat := [resp.header.cmd]

def c6Stream : List RecvResult := [RecvResult.data [1]]

/-- Witness for C6 on a concrete request missing Origin-Host. -/
theorem c6_missing_attribute_crashes_worker_witness :
    frameStep c6Stream = FrameStep.frame [1] [] ∧
    c6Parse [1] = some c6Req ∧
    c6Req.command_code = 257 ∧
    avpLookup c6Req.avps "Origin-Host" = none ∧
    (generate_capability_exchange_answer 0 0 c6Req = none ∧
     send_response 0 0 c6Req = none ∧
     handle_request (respondBytes c6Parse c6Enc 0 0) 1 c6Stream =
       ([], WorkerOutcome.crashed)) :=
  ⟨rfl, rfl, rfl, rfl,
   c6_missing_attribute_crashes_worker c6Parse c6Enc 0 0 0 c6Stream [1] []
     c6Req rfl rfl rfl (Or.inl rfl)⟩
